import Mathlib

/-!
Verification of the CSV-window validation and prediction pipeline of the
`house` electricity-forecast backend.

The embedding models:
* `validate_csv_window` (src/backend/utils/validators.py) over a pandas-like
  dataframe: an ordered list of named columns whose cells are `Option ℚ`
  (`some q` = a value that coerces to the number `q`, `none` = a value that
  fails numeric coercion / a missing cell, i.e. NaN after `pd.to_numeric`
  with `errors='coerce'`).
* `ElectricityPredictor.predict_from_window` (src/backend/services/predictor.py)
  with the fitted scaler and the regression model kept abstract as function
  fields (they are externally trained artifacts), returning `Except` to model
  Python exceptions.
-/

/-- A pandas-like dataframe: a row count plus an ordered list of named
columns.  A cell is `some q` when the stored value coerces to the rational
`q`, and `none` when it is missing or fails numeric coercion (NaN). -/
structure DF where
  nrows : Nat
  cols : List (String × List (Option ℚ))
deriving Repr, DecidableEq

/-- Well-formedness: every column holds exactly `nrows` cells. -/
def DF.WF (d : DF) : Prop := ∀ p ∈ d.cols, p.2.length = d.nrows

instance (d : DF) : Decidable d.WF := by
  unfold DF.WF; infer_instance

/-- `c in df.columns`. -/
def DF.hasCol (d : DF) (c : String) : Bool := d.cols.any (fun p => p.1 == c)

/-- `df[c]`: the cells of the first column named `c` (empty if absent). -/
def DF.getCol (d : DF) (c : String) : List (Option ℚ) :=
  match d.cols.find? (fun p => p.1 == c) with
  | some p => p.2
  | none => []

/-- `df[required_columns].copy()`: select the required columns, in order
(line 39 of validators.py).  `pd.to_numeric(..., errors='coerce')` is the
identity in this model, since cells are already coerced `Option ℚ`. -/
def cleanedDF (d : DF) (required_columns : List String) : DF :=
  ⟨d.nrows, required_columns.map (fun c => (c, d.getCol c))⟩

/-- One cell of the range check on line 67 of validators.py:
`(x < min_val) | (x > max_val)`.  A NaN cell compares false on both sides,
exactly as in pandas. -/
def cellOut (min_val max_val : ℚ) : Option ℚ → Bool
  | none => false
  | some v => decide (v < min_val) || decide (max_val < v)

/-- The static range table of validators.py lines 56-63, in dictionary
insertion order. -/
def ranges : List (String × ℚ × ℚ) :=
  [("Global_intensity", 0, 50),
   ("Sub_metering_3", 0, 50),
   ("Voltage", 200, 260),
   ("Global_reactive_power", 0, 2),
   ("Sub_metering_2", 0, 50),
   ("Global_active_power", 0, 12)]

/-- Error message of validators.py line 28. -/
def rowCountMsg (lookback n : Nat) : String :=
  "CSV must contain exactly " ++ Nat.repr lookback ++
    " rows (hours) of historical data. Found " ++ Nat.repr n ++ " rows."

/-- Error message of validators.py line 35. -/
def missingMsg (missing required : List String) : String :=
  "Missing required columns: " ++ String.intercalate ", " missing ++
    ". Required: " ++ String.intercalate ", " required

/-- Error message of validators.py line 53. -/
def nanMsg (nan_columns : List String) : String :=
  "Invalid or missing numeric values found in columns: " ++
    String.intercalate ", " nan_columns

/-- Error message of validators.py line 70 (the quotes around the column
name are written with escapes). -/
def rangeMsg (col : String) (min_val max_val : ℚ) (bad_rows : Nat) : String :=
  "Column \x27" ++ col ++ "\x27 has " ++ Nat.repr bad_rows ++
    " values out of realistic range [" ++ toString min_val ++ ", " ++
    toString max_val ++ "]"

/-- The loop of validators.py lines 65-70: walk the range table in order and
return the first column that is present in the cleaned frame and has at
least one out-of-range cell, together with its bounds and the count of
out-of-range rows. -/
def firstRangeViolation (d : DF) : List (String × ℚ × ℚ) → Option (String × ℚ × ℚ × Nat)
  | [] => none
  | (col, min_val, max_val) :: rest =>
    if d.hasCol col then
      let bad_rows := (d.getCol col).countP (cellOut min_val max_val)
      if 0 < bad_rows then some (col, min_val, max_val, bad_rows)
      else firstRangeViolation d rest
    else firstRangeViolation d rest

/-- `validate_csv_window` of src/backend/utils/validators.py.  Returns the
triple `(is_valid, error_message, cleaned_df)`. -/
def validate_csv_window (df : Option DF) (selected_features : List String)
    (target_col : String) (lookback : Nat) :
    Bool × Option String × Option DF :=
  match df with
  | none => (false, some "CSV file is empty", none)
  | some d =>
    if d.nrows = 0 then (false, some "CSV file is empty", none)
    else if d.nrows ≠ lookback then
      (false, some (rowCountMsg lookback d.nrows), none)
    else
      let required_columns := selected_features ++ [target_col]
      let missing_columns := required_columns.filter (fun c => ! d.hasCol c)
      if missing_columns ≠ [] then
        (false, some (missingMsg missing_columns required_columns), none)
      else
        let df_cleaned := cleanedDF d required_columns
        let nan_columns :=
          (df_cleaned.cols.filter (fun p => p.2.any Option.isNone)).map Prod.fst
        if nan_columns ≠ [] then
          (false, some (nanMsg nan_columns), none)
        else
          match firstRangeViolation df_cleaned ranges with
          | some (col, min_val, max_val, bad_rows) =>
            (false, some (rangeMsg col min_val max_val bad_rows), none)
          | none => (true, none, some df_cleaned)

/-! ## The Scaler/Model Adapter (src/backend/services/predictor.py) -/

/-- A row-major matrix of cells, as produced by `df[column_order].values`. -/
abbrev CellMatrix := List (List (Option ℚ))

/-- The fitted scaler artifact (`scaler.pkl`): an opaque pair of forward and
inverse transforms over cell matrices.  `Except` models the possibility of a
numeric-transform exception. -/
structure Scaler where
  transform : CellMatrix → Except String CellMatrix
  inverse_transform : CellMatrix → Except String CellMatrix

/-- The regression model artifact (`final_model.keras`): an opaque forward
pass taking the scaled 24×6 window and producing the single normalized
scalar `prediction_scaled[0, 0]`. -/
structure Model where
  predict : CellMatrix → Except String (Option ℚ)

/-- The slice of `config.json` the predictor reads. -/
structure Config where
  target_col : String
deriving Repr, DecidableEq

/-- The loaded `ElectricityPredictor` (predictor.py lines 9-23): model,
scaler, config and selected-features artifacts, all read-only after load. -/
structure ElectricityPredictor where
  model : Model
  scaler : Scaler
  config : Config
  selected_features : List String

/-- The one prediction-result dictionary value: a float or a list of floats
(a float is `none` when the underlying value is NaN). -/
inductive JVal where
  | num : Option ℚ → JVal
  | arr : List (Option ℚ) → JVal
deriving Repr, DecidableEq

/-- `df_window[column_order].values` (predictor.py line 130): the window as
a row-major matrix, one row per dataframe row, columns in `column_order`. -/
def windowMatrix (d : DF) (column_order : List String) : CellMatrix :=
  (List.range d.nrows).map
    (fun i => column_order.map (fun c => (d.getCol c).getD i none))

/-- Python list repr of a list of strings, as printed by
`f"Missing columns: {missing_cols}"`. -/
def pyListRepr (l : List String) : String :=
  "[" ++ String.intercalate ", " (l.map (fun s => "\x27" ++ s ++ "\x27")) ++ "]"

/-- The dummy-row inverse transform of predictor.py lines 148-155: build a
1×`ncols` row of zeros, put the normalized scalar in the last position,
apply the scaler's inverse transform, read back the last position. -/
def denormalize_scalar (sc : Scaler) (ncols : Nat) (s : Option ℚ) :
    Except String (Option ℚ) :=
  if ncols = 0 then .error "index -1 is out of bounds for axis 1 with size 0"
  else
    match sc.inverse_transform [List.replicate (ncols - 1) (some (0 : ℚ)) ++ [s]] with
    | .error e => .error e
    | .ok dummy_original =>
      match dummy_original.head? with
      | none => .error "index 0 is out of bounds for axis 0 with size 0"
      | some row =>
        match row.getLast? with
        | none => .error "index -1 is out of bounds for axis 1 with size 0"
        | some v => .ok v

/-- The same read-back computation with an arbitrary 1×5 filler row in place
of the zeros; used to state that the denormalized value does not depend on
the filler entries. -/
def place_and_invert (sc : Scaler) (fill : List (Option ℚ)) (s : Option ℚ) :
    Except String (Option ℚ) :=
  match sc.inverse_transform [fill ++ [s]] with
  | .error e => .error e
  | .ok dummy_original =>
    match dummy_original.head? with
    | none => .error "index 0 is out of bounds for axis 0 with size 0"
    | some row =>
      match row.getLast? with
      | none => .error "index -1 is out of bounds for axis 1 with size 0"
      | some v => .ok v

/-- `ElectricityPredictor.predict_from_window` (predictor.py lines 95-165).
Python exceptions are modelled as `Except.error`; a returned dictionary is
an ordered key-value list.  Steps, in source order: row-count check, column
presence check, matrix extraction, raw target history extraction, scaler
forward transform, the reshape to `(1, 24, 6)` (which raises when the
element count is wrong), model forward pass, dummy-row inverse transform,
result dictionary. -/
def predict_from_window (P : ElectricityPredictor) (df_window : DF) :
    Except String (List (String × JVal)) :=
  if df_window.nrows ≠ 24 then
    .error ("Expected exactly 24 rows, got " ++ Nat.repr df_window.nrows)
  else
    let target_col := P.config.target_col
    let column_order := P.selected_features ++ [target_col]
    let missing_cols := column_order.filter (fun c => ! df_window.hasCol c)
    if missing_cols ≠ [] then
      .error ("Missing columns: " ++ pyListRepr missing_cols)
    else
      let X_with_target := windowMatrix df_window column_order
      let actual_last_24h := df_window.getCol target_col
      match P.scaler.transform X_with_target with
      | .error e => .error e
      | .ok X_scaled =>
        if (X_scaled.map List.length).sum ≠ 24 * column_order.length then
          .error "cannot reshape array"
        else
          match P.model.predict X_scaled with
          | .error e => .error e
          | .ok prediction_scaled =>
            match denormalize_scalar P.scaler column_order.length prediction_scaled with
            | .error e => .error e
            | .ok predicted_kw =>
              .ok [("predicted_power_kw", JVal.num predicted_kw),
                   ("actual_last_24h_kw", JVal.arr actual_last_24h),
                   ("predicted_next_hour_kw", JVal.num predicted_kw)]

/-! ## Column-wise scalers (for the dummy-row denormalization claim) -/

/-- Apply a per-column map `g` to the cells of a row, starting at column
index `i`. -/
def applyCW (g : Nat → Option ℚ → Option ℚ) : Nat → List (Option ℚ) → List (Option ℚ)
  | _, [] => []
  | i, v :: rest => g i v :: applyCW g (i + 1) rest

/-- A scaler whose inverse transform acts column-wise: entry `j` of every
output row depends only on entry `j` of the corresponding input row, through
the per-column map `g` (as for a per-column affine normalizer). -/
def ColumnwiseInv (sc : Scaler) (g : Nat → Option ℚ → Option ℚ) : Prop :=
  ∀ rows : CellMatrix, sc.inverse_transform rows = .ok (rows.map (applyCW g 0))

/-! ## Object-level model of the validator, for the no-mutation property

Python dataframes are mutable objects; `validate_csv_window` receives a
reference to the caller's dataframe, takes `df[required_columns].copy()`
(validators.py line 39) and then performs its per-column writes
`df_cleaned[col] = pd.to_numeric(df_cleaned[col], errors='coerce')`
(line 46) on that copy.  To state that the caller's object is never
mutated, the same code is traced over an explicit object heap: a list of
dataframe objects addressed by index, where `.copy()` allocates a fresh
object and column assignment writes through a reference. -/

/-- An object heap of dataframes; a reference is an index into the list. -/
abbrev Heap := List DF

/-- Allocate a fresh dataframe object; returns the heap and the new
reference. -/
def Heap.alloc (h : Heap) (d : DF) : Heap × Nat := (h ++ [d], h.length)

/-- Read the object behind a reference. -/
def Heap.read (h : Heap) (r : Nat) : Option DF := h.get? r

/-- Overwrite the object behind a reference. -/
def Heap.write (h : Heap) (r : Nat) (d : DF) : Heap := h.set r d

/-- `df[col] = newCells` on a dataframe object: replace the cells of every
column named `col`. -/
def DF.setCol (d : DF) (col : String) (cells : List (Option ℚ)) : DF :=
  ⟨d.nrows, d.cols.map (fun p => if p.1 == col then (p.1, cells) else p)⟩

/-- `pd.to_numeric(series, errors='coerce')`: the identity on cells already
modelled as coerced `Option ℚ` values. -/
def to_numeric_coerce (cells : List (Option ℚ)) : List (Option ℚ) := cells

/-- The loop of validators.py lines 44-48: for each required column, write
the numerically coerced column back into the object behind `cref`. -/
def coerceLoop (h : Heap) (cref : Nat) : List String → Heap
  | [] => h
  | col :: rest =>
    match h.read cref with
    | none => coerceLoop h cref rest
    | some obj =>
      coerceLoop (h.write cref (obj.setCol col (to_numeric_coerce (obj.getCol col)))) cref rest

/-- `validate_csv_window` traced over the object heap: `r` is the caller's
reference to the uploaded dataframe (`none` models passing Python `None`).
Returns the final heap together with `(is_valid, error_message, cleaned
dataframe reference)`.  All reads go through `r`; the only writes are the
per-column coercions on the `.copy()` allocated inside. -/
def validate_csv_window_st (h : Heap) (r : Option Nat)
    (selected_features : List String) (target_col : String) (lookback : Nat) :
    Heap × (Bool × Option String × Option Nat) :=
  match r with
  | none => (h, (false, some "CSV file is empty", none))
  | some ref =>
    match h.read ref with
    | none => (h, (false, some "CSV file is empty", none))
    | some d =>
      if d.nrows = 0 then (h, (false, some "CSV file is empty", none))
      else if d.nrows ≠ lookback then
        (h, (false, some (rowCountMsg lookback d.nrows), none))
      else
        let required_columns := selected_features ++ [target_col]
        let missing_columns := required_columns.filter (fun c => ! d.hasCol c)
        if missing_columns ≠ [] then
          (h, (false, some (missingMsg missing_columns required_columns), none))
        else
          let alloc := h.alloc (cleanedDF d required_columns)
          let h1 := coerceLoop alloc.1 alloc.2 required_columns
          match h1.read alloc.2 with
          | none => (h1, (false, some "internal error", none))
          | some df_cleaned =>
            let nan_columns :=
              (df_cleaned.cols.filter (fun p => p.2.any Option.isNone)).map Prod.fst
            if nan_columns ≠ [] then
              (h1, (false, some (nanMsg nan_columns), none))
            else
              match firstRangeViolation df_cleaned ranges with
              | some (col, min_val, max_val, bad_rows) =>
                (h1, (false, some (rangeMsg col min_val max_val bad_rows), none))
              | none => (h1, (true, none, some alloc.2))

/-! ## Concrete fixtures (the artifact feature configuration and sample
windows), used to instantiate the theorems below -/

/-- The five selected feature names of the artifact configuration, in the
order used throughout the backend (the non-target keys of the validator's
range table). -/
def fiveFeatures : List String :=
  ["Global_intensity", "Sub_metering_3", "Voltage",
   "Global_reactive_power", "Sub_metering_2"]

/-- The target column name (`config['target_col']`). -/
def targetName : String := "Global_active_power"

/-- A well-formed 24-row window with all six required columns, fully
numeric, every value inside its documented range, and with cells sitting
exactly on range boundaries (Voltage 200 and 260, Global_active_power 0 and
12, Global_intensity 0 and 50). -/
def W6 : DF :=
  ⟨24,
   [("Global_intensity", some 0 :: some 50 :: List.replicate 22 (some 10)),
    ("Sub_metering_3", List.replicate 24 (some 5)),
    ("Voltage", some 200 :: some 260 :: List.replicate 22 (some 230)),
    ("Global_reactive_power", List.replicate 24 (some 1)),
    ("Sub_metering_2", List.replicate 24 (some 2)),
    ("Global_active_power", some 0 :: some 12 :: List.replicate 22 (some 1))]⟩

/-- `W6` with one extra, unrecognized column appended: 7 columns in all. -/
def W7 : DF := ⟨24, W6.cols ++ [("Extra", List.replicate 24 (some 99))]⟩

/-- A 23-row dataframe (one row short of the lookback window). -/
def W23 : DF :=
  ⟨23, [("Global_active_power", List.replicate 23 (some 1))]⟩

/-- A scaler whose forward and inverse transforms are the identity. -/
def idScaler : Scaler := ⟨fun m => .ok m, fun m => .ok m⟩

/-- A regression model returning the constant normalized scalar 1/2. -/
def constModel : Model := ⟨fun _ => .ok (some (1/2 : ℚ))⟩

/-- A loaded predictor built from the identity scaler and the constant
model, with the artifact feature configuration. -/
def P0 : ElectricityPredictor := ⟨constModel, idScaler, ⟨targetName⟩, fiveFeatures⟩

/-- A concrete per-column inverse map: column `j` adds `j` to the cell. -/
def g1 : Nat → Option ℚ → Option ℚ := fun j v => v.map (fun q => q + j)

/-- A scaler whose inverse transform applies `g1` column-wise. -/
def cwScaler : Scaler := ⟨fun m => .ok m, fun rows => .ok (rows.map (applyCW g1 0))⟩

/-! ## C4: row-count rejection -/

/-- C4, counterexample: the claim says every table whose row count is not
24 — including the empty table — is rejected with a message naming the
actual and expected counts.  The empty table (0 rows ≠ 24) is instead
rejected with the fixed message "CSV file is empty", which contains no
digit at all, so it names neither count. -/
theorem c4_counterexample :
    (0 : Nat) ≠ 24 ∧
    validate_csv_window (some ⟨0, []⟩) fiveFeatures targetName 24 =
      (false, some "CSV file is empty", none) ∧
    "CSV file is empty".toList.all (fun ch => ! ch.isDigit) = true :=
  ⟨by decide, rfl, by decide⟩

/-- C4, amended: every *nonempty* table whose row count is not 24 is
rejected with a message naming both the actual row count and the expected
count of 24; the empty table is rejected too, but with the fixed message
"CSV file is empty". -/
theorem c4_rejects_wrong_rowcount (d : DF) (sf : List String) (tc : String)
    (h0 : d.nrows ≠ 0) (h24 : d.nrows ≠ 24) :
    validate_csv_window (some d) sf tc 24 =
      (false, some (rowCountMsg 24 d.nrows), none) ∧
    rowCountMsg 24 d.nrows =
      "CSV must contain exactly " ++ Nat.repr 24 ++
        " rows (hours) of historical data. Found " ++ Nat.repr d.nrows ++ " rows." := by
  refine ⟨?_, rfl⟩
  simp only [validate_csv_window]
  rw [if_neg h0, if_pos h24]

/-- Witness for C4 at the concrete 23-row table `W23`. -/
theorem c4_witness :
    (W23.nrows ≠ 0 ∧ W23.nrows ≠ 24) ∧
    (validate_csv_window (some W23) fiveFeatures targetName 24 =
      (false, some (rowCountMsg 24 W23.nrows), none) ∧
     rowCountMsg 24 W23.nrows =
      "CSV must contain exactly " ++ Nat.repr 24 ++
        " rows (hours) of historical data. Found " ++ Nat.repr W23.nrows ++ " rows.") :=
  ⟨⟨by decide, by decide⟩,
   c4_rejects_wrong_rowcount W23 fiveFeatures targetName (by decide) (by decide)⟩

/-! ## C9: determinism of prediction -/

/-- C9: `predict_from_window` is deterministic — two calls with the same
loaded predictor (scaler and model artifacts) and the same window return
identical results. -/
theorem c9_deterministic (P1 P2 : ElectricityPredictor) (w1 w2 : DF)
    (hP : P1 = P2) (hw : w1 = w2) :
    predict_from_window P1 w1 = predict_from_window P2 w2 := by
  subst hP; subst hw; rfl

/-- Witness for C9 at the concrete predictor `P0` and window `W6`. -/
theorem c9_witness :
    (P0 = P0 ∧ W6 = W6) ∧
    predict_from_window P0 W6 = predict_from_window P0 W6 :=
  ⟨⟨rfl, rfl⟩, c9_deterministic P0 P0 W6 W6 rfl rfl⟩

/-! ## C5: defensive re-checks in the adapter -/

/-- C5, counterexample: the claim says `predict_from_window` fails fast
whenever the window's column count is not exactly the 6 `column_order`
columns.  A 24-row window with 7 columns (the 6 required ones plus an
extra, unrecognized one) is instead accepted and produces a full
prediction: the code only checks the row count and the *presence* of the
required columns, and ignores extra columns. -/
theorem c5_counterexample :
    W7.cols.length = 7 ∧ W7.nrows = 24 ∧
    predict_from_window P0 W7 =
      .ok [("predicted_power_kw", JVal.num (some (1/2 : ℚ))),
           ("actual_last_24h_kw", JVal.arr (some 0 :: some 12 :: List.replicate 22 (some 1))),
           ("predicted_next_hour_kw", JVal.num (some (1/2 : ℚ)))] :=
  ⟨rfl, rfl, by rfl⟩

/-- C5, amended: `predict_from_window` re-checks its precondition
defensively — for every input window whose row count is not 24, or which is
*missing* one of the 6 `column_order` columns, it fails fast with a
descriptive error (naming the row count found, resp. the missing columns)
rather than producing a prediction.  Extra columns beyond `column_order`
are ignored, not rejected. -/
theorem c5_fails_fast_on_bad_window (P : ElectricityPredictor) (w : DF)
    (h : w.nrows ≠ 24 ∨
      (P.selected_features ++ [P.config.target_col]).filter
        (fun c => ! w.hasCol c) ≠ []) :
    predict_from_window P w =
      .error ("Expected exactly 24 rows, got " ++ Nat.repr w.nrows) ∨
    predict_from_window P w =
      .error ("Missing columns: " ++
        pyListRepr ((P.selected_features ++ [P.config.target_col]).filter
          (fun c => ! w.hasCol c))) := by
  by_cases h24 : w.nrows ≠ 24
  · left
    simp only [predict_from_window]
    rw [if_pos h24]
  · right
    rcases h with h | hmiss
    · exact absurd h h24
    · simp only [predict_from_window]
      rw [if_neg h24, if_pos hmiss]

/-- Witness for C5 at the concrete 23-row window `W23`. -/
theorem c5_witness :
    (W23.nrows ≠ 24 ∨
      (P0.selected_features ++ [P0.config.target_col]).filter
        (fun c => ! W23.hasCol c) ≠ []) ∧
    (predict_from_window P0 W23 =
      .error ("Expected exactly 24 rows, got " ++ Nat.repr W23.nrows) ∨
     predict_from_window P0 W23 =
      .error ("Missing columns: " ++
        pyListRepr ((P0.selected_features ++ [P0.config.target_col]).filter
          (fun c => ! W23.hasCol c)))) :=
  ⟨Or.inl (by decide),
   c5_fails_fast_on_bad_window P0 W23 (Or.inl (by decide))⟩

/-! ## C3: the dummy-row inverse-transform technique -/

/-- Appending a final cell to a row shifts it to the index after the
existing cells under a column-wise map. -/
theorem applyCW_concat (g : Nat → Option ℚ → Option ℚ) (s : Option ℚ) :
    ∀ (l : List (Option ℚ)) (i : Nat),
      applyCW g i (l ++ [s]) = applyCW g i l ++ [g (i + l.length) s] := by
  intro l
  induction l with
  | nil => intro i; simp [applyCW]
  | cons v rest ih =>
    intro i
    show g i v :: applyCW g (i + 1) (rest ++ [s]) =
      g i v :: (applyCW g (i + 1) rest ++ [g (i + (rest.length + 1)) s])
    rw [ih (i + 1)]
    have harith : i + 1 + rest.length = i + (rest.length + 1) := by omega
    rw [harith]

/-- C3: `predict_from_window` denormalizes the model's scalar output by
building a 1×6 row of zeros, placing the normalized scalar at the last
(target) position, applying the scaler's inverse transform and reading back
the last position (`denormalize_scalar`); for any scaler whose inverse
transform acts column-wise through a per-column map `g`, the value obtained
is `g 5` applied to the scalar — the target column's own inverse transform —
and the same value results whatever 5 filler cells stand in place of the
zeros. -/
theorem c3_dummy_row_denormalization (sc : Scaler) (g : Nat → Option ℚ → Option ℚ)
    (hcw : ColumnwiseInv sc g) (s : Option ℚ)
    (fill : List (Option ℚ)) (hfill : fill.length = 5) :
    denormalize_scalar sc 6 s = .ok (g 5 s) ∧
    place_and_invert sc fill s = .ok (g 5 s) := by
  constructor
  · simp only [denormalize_scalar, if_neg (by decide : ¬ (6 = 0))]
    rw [hcw]
    rfl
  · simp only [place_and_invert]
    rw [hcw]
    show (match (applyCW g 0 (fill ++ [s])).getLast? with
      | none => Except.error "index -1 is out of bounds for axis 1 with size 0"
      | some v => Except.ok v) = Except.ok (g 5 s)
    rw [applyCW_concat g s fill 0, List.getLast?_concat, hfill]

/-- Witness for C3 at the concrete column-wise scaler `cwScaler` (per-column
map `g1`), scalar 1/2 and filler row of five 3s. -/
theorem c3_witness :
    ColumnwiseInv cwScaler g1 ∧ (List.replicate 5 (some (3 : ℚ))).length = 5 ∧
    (denormalize_scalar cwScaler 6 (some (1/2 : ℚ)) = .ok (g1 5 (some (1/2 : ℚ))) ∧
     place_and_invert cwScaler (List.replicate 5 (some (3 : ℚ))) (some (1/2 : ℚ)) =
       .ok (g1 5 (some (1/2 : ℚ)))) :=
  ⟨fun _ => rfl, rfl,
   c3_dummy_row_denormalization cwScaler g1 (fun _ => rfl) (some (1/2 : ℚ))
     (List.replicate 5 (some (3 : ℚ))) rfl⟩

/-! ## Validator helper lemmas -/

/-- A boolean `==`-scan of a string list decides membership. -/
theorem any_beq_iff_mem (l : List String) (c : String) :
    l.any (fun x => x == c) = true ↔ c ∈ l := by
  rw [List.any_eq_true]
  constructor
  · rintro ⟨x, hx, hbeq⟩
    exact eq_of_beq hbeq ▸ hx
  · intro hc
    exact ⟨c, hc, by simp⟩

/-- In a well-formed dataframe, every present column has `nrows` cells. -/
theorem DF.getCol_length (d : DF) (hwf : d.WF) (c : String)
    (hc : d.hasCol c = true) : (d.getCol c).length = d.nrows := by
  unfold DF.getCol
  cases hfind : d.cols.find? (fun p => p.1 == c) with
  | none =>
    exfalso
    obtain ⟨p, hp, hpc⟩ := List.any_eq_true.mp hc
    exact List.find?_eq_none.mp hfind p hp hpc
  | some p => exact hwf p (List.mem_of_find?_eq_some hfind)

/-- Selecting required columns preserves each required column's cells. -/
theorem cleanedDF_getCol (d : DF) (c : String) :
    ∀ req : List String, c ∈ req → (cleanedDF d req).getCol c = d.getCol c := by
  intro req
  induction req with
  | nil => intro h; cases h
  | cons x rest ih =>
    intro hc
    by_cases hx : x = c
    · have hfind : ((x, d.getCol x) :: rest.map (fun y => (y, d.getCol y))).find?
          (fun p => p.1 == c) = some (x, d.getCol x) :=
        List.find?_cons_of_pos _ (by simpa using hx)
      show (match ((x, d.getCol x) :: rest.map (fun y => (y, d.getCol y))).find?
          (fun p => p.1 == c) with
        | some p => p.2
        | none => []) = d.getCol c
      rw [hfind, hx]
    · have hcr : c ∈ rest := by
        rcases List.mem_cons.mp hc with h | h
        · exact absurd h.symm hx
        · exact h
      have hfind : ((x, d.getCol x) :: rest.map (fun y => (y, d.getCol y))).find?
          (fun p => p.1 == c) = (rest.map (fun y => (y, d.getCol y))).find?
          (fun p => p.1 == c) :=
        List.find?_cons_of_neg _ (by simpa using hx)
      have hstep : (cleanedDF d (x :: rest)).getCol c = (cleanedDF d rest).getCol c := by
        show (match ((x, d.getCol x) :: rest.map (fun y => (y, d.getCol y))).find?
            (fun p => p.1 == c) with
          | some p => p.2
          | none => []) = _
        rw [hfind]
        rfl
      rw [hstep]
      exact ih hcr

/-- Column presence in the selected frame is an `==`-scan of the required
names. -/
theorem cleanedDF_hasCol (d : DF) (req : List String) (c : String) :
    (cleanedDF d req).hasCol c = req.any (fun x => x == c) := by
  show ((req.map (fun y => (y, d.getCol y))).any (fun p => p.1 == c)) = _
  induction req with
  | nil => rfl
  | cons x rest ih => simp [ih]

/-- The range-table walk returns `none` exactly when every present listed
column counts zero out-of-range cells. -/
theorem firstRangeViolation_eq_none_iff (dc : DF) (rl : List (String × ℚ × ℚ)) :
    firstRangeViolation dc rl = none ↔
      ∀ t ∈ rl, dc.hasCol t.1 = true →
        (dc.getCol t.1).countP (cellOut t.2.1 t.2.2) = 0 := by
  induction rl with
  | nil => simp [firstRangeViolation]
  | cons hd rest ih =>
    obtain ⟨col, mn, mx⟩ := hd
    simp only [firstRangeViolation]
    by_cases hc : dc.hasCol col = true
    · rw [if_pos hc]
      by_cases hcnt : 0 < (dc.getCol col).countP (cellOut mn mx)
      · rw [if_pos hcnt]
        refine iff_of_false (by simp) (fun h => ?_)
        have := h (col, mn, mx) (List.mem_cons_self _ _) hc
        dsimp only at this
        omega
      · rw [if_neg hcnt, ih]
        constructor
        · intro h t ht hhc
          rcases List.mem_cons.mp ht with rfl | hmem
          · dsimp only
            omega
          · exact h t hmem hhc
        · intro h t ht hhc
          exact h t (List.mem_cons_of_mem _ ht) hhc
    · rw [if_neg hc, ih]
      constructor
      · intro h t ht hhc
        rcases List.mem_cons.mp ht with rfl | hmem
        · exact absurd hhc hc
        · exact h t hmem hhc
      · intro h t ht hhc
        exact h t (List.mem_cons_of_mem _ ht) hhc

/-- When the range-table walk reports a violation, the reported column is a
listed, present column, and the reported count is its exact out-of-range
count, which is positive. -/
theorem firstRangeViolation_eq_some (dc : DF) (col : String) (mn mx : ℚ) (cnt : Nat) :
    ∀ rl : List (String × ℚ × ℚ),
      firstRangeViolation dc rl = some (col, mn, mx, cnt) →
      (col, mn, mx) ∈ rl ∧ dc.hasCol col = true ∧
      cnt = (dc.getCol col).countP (cellOut mn mx) ∧ 0 < cnt := by
  intro rl
  induction rl with
  | nil => intro h; simp [firstRangeViolation] at h
  | cons hd rest ih =>
    obtain ⟨c0, m0, x0⟩ := hd
    intro h
    simp only [firstRangeViolation] at h
    by_cases hc : dc.hasCol c0 = true
    · rw [if_pos hc] at h
      by_cases hcnt : 0 < (dc.getCol c0).countP (cellOut m0 x0)
      · rw [if_pos hcnt] at h
        simp only [Option.some.injEq, Prod.mk.injEq] at h
        obtain ⟨rfl, rfl, rfl, rfl⟩ := h
        exact ⟨List.mem_cons_self _ _, hc, rfl, hcnt⟩
      · rw [if_neg hcnt] at h
        obtain ⟨hmem, hhc, hcnt2, hpos⟩ := ih h
        exact ⟨List.mem_cons_of_mem _ hmem, hhc, hcnt2, hpos⟩
    · rw [if_neg hc] at h
      obtain ⟨hmem, hhc, hcnt2, hpos⟩ := ih h
      exact ⟨List.mem_cons_of_mem _ hmem, hhc, hcnt2, hpos⟩

/-- Under a 24-row, all-columns-present, fully numeric window, the validator
reduces to its final range check. -/
theorem validate_csv_window_checks (d : DF) (sf : List String) (tc : String)
    (h24 : d.nrows = 24)
    (hpresent : ∀ c ∈ sf ++ [tc], d.hasCol c = true)
    (hnum : ∀ c ∈ sf ++ [tc], ∀ v ∈ d.getCol c, v.isSome = true) :
    validate_csv_window (some d) sf tc 24 =
      match firstRangeViolation (cleanedDF d (sf ++ [tc])) ranges with
      | some (col, mn, mx, cnt) => (false, some (rangeMsg col mn mx cnt), none)
      | none => (true, none, some (cleanedDF d (sf ++ [tc]))) := by
  have h0 : ¬ d.nrows = 0 := by omega
  have hne : ¬ d.nrows ≠ 24 := by omega
  have hmiss : (sf ++ [tc]).filter (fun c => ! d.hasCol c) = [] := by
    rw [List.filter_eq_nil_iff]
    intro c hcmem
    simp [hpresent c hcmem]
  have hnanL : (cleanedDF d (sf ++ [tc])).cols.filter (fun p => p.2.any Option.isNone) = [] := by
    rw [List.filter_eq_nil_iff]
    intro p hp
    obtain ⟨c, hcmem, rfl⟩ := List.mem_map.mp hp
    intro hany
    obtain ⟨v, hv, hvnone⟩ := List.any_eq_true.mp hany
    have := hnum c hcmem v hv
    cases v <;> simp_all
  simp only [validate_csv_window]
  rw [if_neg h0, if_neg hne, hmiss]
  rw [if_neg (by simp : ¬ ([] : List String) ≠ [])]
  rw [hnanL]
  rw [if_neg (by simp : ¬ (([] : List (String × List (Option ℚ))).map Prod.fst) ≠ [])]

/-! ## C1: acceptance of clean 24-row windows -/

/-- C1: every 24-row, well-formed table containing the 5 feature columns
and the target column, fully numeric in those 6 columns with every value
inside its documented range, is accepted: `ok = True` and the cleaned table
has exactly 24 rows (in count and in every column's cell count) and exactly
the 6 `column_order` columns — the 5 feature names followed by the target
name, in that order. -/
theorem c1_accepts_valid_window (d : DF)
    (hwf : d.WF) (h24 : d.nrows = 24)
    (hpresent : ∀ c ∈ fiveFeatures ++ [targetName], d.hasCol c = true)
    (hnum : ∀ c ∈ fiveFeatures ++ [targetName], ∀ v ∈ d.getCol c, v.isSome = true)
    (hrange : ∀ t ∈ ranges, ∀ v ∈ d.getCol t.1, cellOut t.2.1 t.2.2 v = false) :
    validate_csv_window (some d) fiveFeatures targetName 24 =
      (true, none, some (cleanedDF d (fiveFeatures ++ [targetName]))) ∧
    (cleanedDF d (fiveFeatures ++ [targetName])).nrows = 24 ∧
    (∀ p ∈ (cleanedDF d (fiveFeatures ++ [targetName])).cols, p.2.length = 24) ∧
    (cleanedDF d (fiveFeatures ++ [targetName])).cols.map Prod.fst =
      fiveFeatures ++ [targetName] ∧
    (cleanedDF d (fiveFeatures ++ [targetName])).cols.length = 6 := by
  have hsub : ∀ t ∈ ranges, t.1 ∈ fiveFeatures ++ [targetName] := by decide
  have hnone : firstRangeViolation (cleanedDF d (fiveFeatures ++ [targetName])) ranges = none := by
    rw [firstRangeViolation_eq_none_iff]
    intro t ht hhc
    rw [cleanedDF_getCol d t.1 _ (hsub t ht), List.countP_eq_zero]
    intro v hv
    simp [hrange t ht v hv]
  refine ⟨?_, by simp [cleanedDF, h24], ?_, ?_, ?_⟩
  · rw [validate_csv_window_checks d _ _ h24 hpresent hnum, hnone]
  · intro p hp
    obtain ⟨c, hcmem, rfl⟩ := List.mem_map.mp hp
    have := DF.getCol_length d hwf c (hpresent c hcmem)
    simpa [h24] using this
  · simp only [cleanedDF, List.map_map]
    show List.map (fun c : String => c) (fiveFeatures ++ [targetName]) = _
    simp
  · simp [cleanedDF, fiveFeatures]

/-- Witness for C1 at the concrete boundary-value window `W6`. -/
theorem c1_witness :
    (W6.WF ∧ W6.nrows = 24 ∧
     (∀ c ∈ fiveFeatures ++ [targetName], W6.hasCol c = true) ∧
     (∀ c ∈ fiveFeatures ++ [targetName], ∀ v ∈ W6.getCol c, v.isSome = true) ∧
     (∀ t ∈ ranges, ∀ v ∈ W6.getCol t.1, cellOut t.2.1 t.2.2 v = false)) ∧
    (validate_csv_window (some W6) fiveFeatures targetName 24 =
      (true, none, some (cleanedDF W6 (fiveFeatures ++ [targetName]))) ∧
     (cleanedDF W6 (fiveFeatures ++ [targetName])).nrows = 24 ∧
     (∀ p ∈ (cleanedDF W6 (fiveFeatures ++ [targetName])).cols, p.2.length = 24) ∧
     (cleanedDF W6 (fiveFeatures ++ [targetName])).cols.map Prod.fst =
       fiveFeatures ++ [targetName] ∧
     (cleanedDF W6 (fiveFeatures ++ [targetName])).cols.length = 6) :=
  ⟨⟨by decide, by decide, by decide, by decide, by decide⟩,
   c1_accepts_valid_window W6 (by decide) (by decide) (by decide) (by decide) (by decide)⟩

/-! ## C6: inclusive range bounds -/

/-- C6: for a 24-row window with all 6 columns present and fully numeric,
the range check uses inclusive bounds — validation succeeds iff no cell of
any of the 6 known columns lies strictly outside its range (so cells equal
to a range minimum or maximum are accepted) — and when the range walk
reports a violation the validator rejects with a message naming that
column, its bounds and the exact count of its out-of-range rows. -/
theorem c6_inclusive_range_check (d : DF)
    (h24 : d.nrows = 24)
    (hpresent : ∀ c ∈ fiveFeatures ++ [targetName], d.hasCol c = true)
    (hnum : ∀ c ∈ fiveFeatures ++ [targetName], ∀ v ∈ d.getCol c, v.isSome = true) :
    ((validate_csv_window (some d) fiveFeatures targetName 24).1 = true ↔
      ∀ t ∈ ranges, ∀ v ∈ d.getCol t.1, cellOut t.2.1 t.2.2 v = false) ∧
    (∀ col mn mx cnt,
      firstRangeViolation (cleanedDF d (fiveFeatures ++ [targetName])) ranges =
        some (col, mn, mx, cnt) →
      validate_csv_window (some d) fiveFeatures targetName 24 =
        (false, some (rangeMsg col mn mx cnt), none) ∧
      (col, mn, mx) ∈ ranges ∧
      cnt = (d.getCol col).countP (cellOut mn mx) ∧ 0 < cnt) := by
  have hchecks := validate_csv_window_checks d fiveFeatures targetName h24 hpresent hnum
  have hsub : ∀ t ∈ ranges, t.1 ∈ fiveFeatures ++ [targetName] := by decide
  have hhascol : ∀ t ∈ ranges,
      (cleanedDF d (fiveFeatures ++ [targetName])).hasCol t.1 = true := by
    intro t ht
    rw [cleanedDF_hasCol, any_beq_iff_mem]
    exact hsub t ht
  constructor
  · rw [hchecks]
    cases hfrv : firstRangeViolation (cleanedDF d (fiveFeatures ++ [targetName])) ranges with
    | none =>
      refine iff_of_true rfl ?_
      intro t ht v hv
      have h0 := (firstRangeViolation_eq_none_iff _ _).mp hfrv t ht (hhascol t ht)
      rw [cleanedDF_getCol d t.1 _ (hsub t ht)] at h0
      have := List.countP_eq_zero.mp h0 v hv
      simpa using this
    | some q =>
      obtain ⟨col, mn, mx, cnt⟩ := q
      refine iff_of_false (by simp) ?_
      intro hall
      obtain ⟨hmem, hhc, hcnt, hpos⟩ :=
        firstRangeViolation_eq_some _ col mn mx cnt ranges hfrv
      rw [cleanedDF_getCol d col _ (hsub (col, mn, mx) hmem)] at hcnt
      have hz : (d.getCol col).countP (cellOut mn mx) = 0 :=
        List.countP_eq_zero.mpr (fun v hv => by
          have := hall (col, mn, mx) hmem v hv
          simp_all)
      omega
  · intro col mn mx cnt hfrv
    obtain ⟨hmem, hhc, hcnt, hpos⟩ :=
      firstRangeViolation_eq_some _ col mn mx cnt ranges hfrv
    refine ⟨?_, hmem, ?_, hpos⟩
    · rw [hchecks, hfrv]
    · rw [cleanedDF_getCol d col _ (hsub (col, mn, mx) hmem)] at hcnt
      exact hcnt

/-- Witness for C6 at the concrete boundary-value window `W6` (whose
Voltage column contains exactly 200 and 260, and whose target column
contains exactly 0 and 12). -/
theorem c6_witness :
    (W6.nrows = 24 ∧
     (∀ c ∈ fiveFeatures ++ [targetName], W6.hasCol c = true) ∧
     (∀ c ∈ fiveFeatures ++ [targetName], ∀ v ∈ W6.getCol c, v.isSome = true)) ∧
    (((validate_csv_window (some W6) fiveFeatures targetName 24).1 = true ↔
      ∀ t ∈ ranges, ∀ v ∈ W6.getCol t.1, cellOut t.2.1 t.2.2 v = false) ∧
     (∀ col mn mx cnt,
      firstRangeViolation (cleanedDF W6 (fiveFeatures ++ [targetName])) ranges =
        some (col, mn, mx, cnt) →
      validate_csv_window (some W6) fiveFeatures targetName 24 =
        (false, some (rangeMsg col mn mx cnt), none) ∧
      (col, mn, mx) ∈ ranges ∧
      cnt = (W6.getCol col).countP (cellOut mn mx) ∧ 0 < cnt)) :=
  ⟨⟨by decide, by decide, by decide⟩,
   c6_inclusive_range_check W6 (by decide) (by decide) (by decide)⟩

/-! ## C7: rejection naming every column with missing values -/

/-- A window with a missing value in Sub_metering_3 and in Sub_metering_2
(all 6 required columns present, 24 rows). -/
def W6nan : DF :=
  ⟨24,
   [("Global_intensity", List.replicate 24 (some 10)),
    ("Sub_metering_3", none :: List.replicate 23 (some 5)),
    ("Voltage", List.replicate 24 (some 230)),
    ("Global_reactive_power", List.replicate 24 (some 1)),
    ("Sub_metering_2", none :: List.replicate 23 (some 2)),
    ("Global_active_power", List.replicate 24 (some 1))]⟩

/-- C7: a 24-row table with all required columns present, in which some
required column still contains a missing value after numeric coercion, is
rejected with the NaN message built from the list of *all* columns
containing a missing value — every such column appears in it, not only the
first. -/
theorem c7_names_every_nan_column (d : DF) (sf : List String) (tc : String)
    (h24 : d.nrows = 24)
    (hpresent : ∀ c ∈ sf ++ [tc], d.hasCol c = true)
    (hmiss : ∃ c ∈ sf ++ [tc], ∃ v ∈ d.getCol c, v.isNone = true) :
    ∃ nan_columns : List String,
      validate_csv_window (some d) sf tc 24 =
        (false, some (nanMsg nan_columns), none) ∧
      nan_columns = ((cleanedDF d (sf ++ [tc])).cols.filter
        (fun p => p.2.any Option.isNone)).map Prod.fst ∧
      nan_columns ≠ [] ∧
      ∀ c ∈ sf ++ [tc], (∃ v ∈ d.getCol c, v.isNone = true) → c ∈ nan_columns := by
  have h0 : ¬ d.nrows = 0 := by omega
  have hne : ¬ d.nrows ≠ 24 := by omega
  have hmissf : (sf ++ [tc]).filter (fun c => ! d.hasCol c) = [] := by
    rw [List.filter_eq_nil_iff]
    intro c hcmem
    simp [hpresent c hcmem]
  have hmemnan : ∀ c ∈ sf ++ [tc], (∃ v ∈ d.getCol c, v.isNone = true) →
      c ∈ ((cleanedDF d (sf ++ [tc])).cols.filter
        (fun p => p.2.any Option.isNone)).map Prod.fst := by
    intro c hcmem ⟨v, hv, hvnone⟩
    refine List.mem_map.mpr ⟨(c, d.getCol c), List.mem_filter.mpr ⟨?_, ?_⟩, rfl⟩
    · exact List.mem_map_of_mem _ hcmem
    · exact List.any_eq_true.mpr ⟨v, hv, hvnone⟩
  obtain ⟨c0, hc0, hv0⟩ := hmiss
  have hnonempty : ((cleanedDF d (sf ++ [tc])).cols.filter
      (fun p => p.2.any Option.isNone)).map Prod.fst ≠ [] :=
    List.ne_nil_of_mem (hmemnan c0 hc0 hv0)
  refine ⟨_, ?_, rfl, hnonempty, hmemnan⟩
  simp only [validate_csv_window]
  rw [if_neg h0, if_neg hne, hmissf]
  rw [if_neg (by simp : ¬ ([] : List String) ≠ [])]
  rw [if_pos hnonempty]

/-- Witness for C7 at the concrete window `W6nan`, whose Sub_metering_3 and
Sub_metering_2 columns both contain a missing value. -/
theorem c7_witness :
    (W6nan.nrows = 24 ∧
     (∀ c ∈ fiveFeatures ++ [targetName], W6nan.hasCol c = true) ∧
     (∃ c ∈ fiveFeatures ++ [targetName], ∃ v ∈ W6nan.getCol c, v.isNone = true)) ∧
    (∃ nan_columns : List String,
      validate_csv_window (some W6nan) fiveFeatures targetName 24 =
        (false, some (nanMsg nan_columns), none) ∧
      nan_columns = ((cleanedDF W6nan (fiveFeatures ++ [targetName])).cols.filter
        (fun p => p.2.any Option.isNone)).map Prod.fst ∧
      nan_columns ≠ [] ∧
      ∀ c ∈ fiveFeatures ++ [targetName],
        (∃ v ∈ W6nan.getCol c, v.isNone = true) → c ∈ nan_columns) :=
  ⟨⟨by decide, by decide, by decide⟩,
   c7_names_every_nan_column W6nan fiveFeatures targetName
     (by decide) (by decide) (by decide)⟩

/-! ## C2 and C8: shape of a successful prediction result -/

/-- Any successfully returned prediction dictionary has exactly the literal
shape built on predictor.py lines 157-161: the same denormalized value under
both prediction keys, and the raw target history under the middle key; and
success implies the row-count and column-presence checks passed. -/
theorem predict_from_window_ok (P : ElectricityPredictor) (w : DF)
    (r : List (String × JVal))
    (hok : predict_from_window P w = .ok r) :
    w.nrows = 24 ∧
    (P.selected_features ++ [P.config.target_col]).filter (fun c => ! w.hasCol c) = [] ∧
    ∃ v : Option ℚ,
      r = [("predicted_power_kw", JVal.num v),
           ("actual_last_24h_kw", JVal.arr (w.getCol P.config.target_col)),
           ("predicted_next_hour_kw", JVal.num v)] := by
  simp only [predict_from_window] at hok
  by_cases h24 : w.nrows ≠ 24
  · rw [if_pos h24] at hok
    exact absurd hok (by simp)
  · rw [if_neg h24] at hok
    by_cases hmiss :
        (P.selected_features ++ [P.config.target_col]).filter (fun c => ! w.hasCol c) ≠ []
    · rw [if_pos hmiss] at hok
      exact absurd hok (by simp)
    · rw [if_neg hmiss] at hok
      cases htr : P.scaler.transform
          (windowMatrix w (P.selected_features ++ [P.config.target_col])) with
      | error e =>
        rw [htr] at hok
        dsimp only at hok
        exact absurd hok (by simp)
      | ok Xs =>
        rw [htr] at hok
        dsimp only at hok
        by_cases hsum : (Xs.map List.length).sum ≠
            24 * (P.selected_features ++ [P.config.target_col]).length
        · rw [if_pos hsum] at hok
          exact absurd hok (by simp)
        · rw [if_neg hsum] at hok
          cases hm : P.model.predict Xs with
          | error e =>
            rw [hm] at hok
            dsimp only at hok
            exact absurd hok (by simp)
          | ok ps =>
            rw [hm] at hok
            dsimp only at hok
            cases hd : denormalize_scalar P.scaler
                (P.selected_features ++ [P.config.target_col]).length ps with
            | error e =>
              rw [hd] at hok
              dsimp only at hok
              exact absurd hok (by simp)
            | ok pk =>
              rw [hd] at hok
              dsimp only at hok
              refine ⟨by omega, by tauto, pk, ?_⟩
              exact (Except.ok.inj hok).symm

/-- C2: for every well-formed window on which `predict_from_window`
returns a result, the returned `predicted_next_hour_kw` equals
`predicted_power_kw`, and `actual_last_24h_kw` is exactly the 24 raw,
un-normalized values of the target column in the window's row order. -/
theorem c2_duplicated_field_and_raw_history (P : ElectricityPredictor) (w : DF)
    (hwf : w.WF) (r : List (String × JVal))
    (hok : predict_from_window P w = .ok r) :
    r.lookup "predicted_next_hour_kw" = r.lookup "predicted_power_kw" ∧
    r.lookup "actual_last_24h_kw" = some (JVal.arr (w.getCol P.config.target_col)) ∧
    (w.getCol P.config.target_col).length = 24 := by
  obtain ⟨h24, hfilter, v, rfl⟩ := predict_from_window_ok P w r hok
  refine ⟨rfl, rfl, ?_⟩
  have htc : w.hasCol P.config.target_col = true := by
    have := List.filter_eq_nil_iff.mp hfilter P.config.target_col (by simp)
    simpa using this
  rw [DF.getCol_length w hwf _ htc, h24]

/-- Witness for C2 at the concrete predictor `P0` and window `W6`. -/
theorem c2_witness :
    (W6.WF ∧
     predict_from_window P0 W6 =
       .ok [("predicted_power_kw", JVal.num (some (1/2 : ℚ))),
            ("actual_last_24h_kw", JVal.arr (some 0 :: some 12 :: List.replicate 22 (some 1))),
            ("predicted_next_hour_kw", JVal.num (some (1/2 : ℚ)))]) ∧
    ([("predicted_power_kw", JVal.num (some (1/2 : ℚ))),
      ("actual_last_24h_kw", JVal.arr (some 0 :: some 12 :: List.replicate 22 (some 1))),
      ("predicted_next_hour_kw", JVal.num (some (1/2 : ℚ)))].lookup "predicted_next_hour_kw" =
     [("predicted_power_kw", JVal.num (some (1/2 : ℚ))),
      ("actual_last_24h_kw", JVal.arr (some 0 :: some 12 :: List.replicate 22 (some 1))),
      ("predicted_next_hour_kw", JVal.num (some (1/2 : ℚ)))].lookup "predicted_power_kw" ∧
     [("predicted_power_kw", JVal.num (some (1/2 : ℚ))),
      ("actual_last_24h_kw", JVal.arr (some 0 :: some 12 :: List.replicate 22 (some 1))),
      ("predicted_next_hour_kw", JVal.num (some (1/2 : ℚ)))].lookup "actual_last_24h_kw" =
       some (JVal.arr (W6.getCol P0.config.target_col)) ∧
     (W6.getCol P0.config.target_col).length = 24) :=
  ⟨⟨by decide, by rfl⟩,
   c2_duplicated_field_and_raw_history P0 W6 (by decide) _ (by rfl)⟩

/-- C8: `predict_from_window` never returns a partially-filled result — for
every predictor and input window, it either returns a dictionary containing
all three fields (`predicted_power_kw`, `actual_last_24h_kw`,
`predicted_next_hour_kw`) and nothing else, or propagates an error; every
dimension mismatch or transform failure takes the error branch. -/
theorem c8_no_partial_result (P : ElectricityPredictor) (w : DF) :
    (∃ r, predict_from_window P w = .ok r ∧
      (r.lookup "predicted_power_kw").isSome = true ∧
      (r.lookup "actual_last_24h_kw").isSome = true ∧
      (r.lookup "predicted_next_hour_kw").isSome = true ∧
      r.length = 3) ∨
    (∃ e, predict_from_window P w = .error e) := by
  cases hres : predict_from_window P w with
  | error e => exact Or.inr ⟨e, rfl⟩
  | ok r =>
    left
    obtain ⟨h24, hfilter, v, rfl⟩ := predict_from_window_ok P w r hres
    refine ⟨_, rfl, ?_, ?_, ?_, ?_⟩ <;> rfl

/-! ## C10: the caller's dataframe object is never mutated -/

/-- Writing through one reference leaves every other reference's object
unchanged. -/
theorem Heap.read_write_ne (h : Heap) (r cref : Nat) (d : DF) (hne : cref ≠ r) :
    (h.write cref d).read r = h.read r :=
  List.get?_set_ne d h hne

/-- The per-column coercion loop only ever writes through the copy's
reference, so every other reference reads unchanged. -/
theorem coerceLoop_read_ne (cref r : Nat) (hne : cref ≠ r) :
    ∀ (cols : List String) (h : Heap),
      (coerceLoop h cref cols).read r = h.read r := by
  intro cols
  induction cols with
  | nil => intro h; rfl
  | cons c rest ih =>
    intro h
    simp only [coerceLoop]
    cases hread : h.read cref with
    | none => exact ih h
    | some obj =>
      rw [ih (h.write cref (obj.setCol c (to_numeric_coerce (obj.getCol c))))]
      exact Heap.read_write_ne h r cref _ hne

/-- C10: `validate_csv_window` never mutates the caller's dataframe.  In
the heap-traced model, the object behind the caller's reference is the same
after the call as before, whether validation succeeds or fails: the column
selection copies the frame and all numeric coercion writes go to the
copy. -/
theorem c10_input_never_mutated (h : Heap) (r : Nat)
    (sf : List String) (tc : String) (lookback : Nat)
    (hr : r < h.length) :
    (validate_csv_window_st h (some r) sf tc lookback).1.read r = h.read r := by
  simp only [validate_csv_window_st]
  cases hread : h.read r with
  | none => exact hread
  | some d =>
    have hne : h.length ≠ r := by omega
    have happ : ((h ++ [cleanedDF d (sf ++ [tc])] : Heap)).read r = h.read r := by
      show (h ++ [cleanedDF d (sf ++ [tc])]).get? r = h.get? r
      exact List.get?_append hr
    have hmain : (coerceLoop (h ++ [cleanedDF d (sf ++ [tc])]) h.length (sf ++ [tc])).read r
        = h.read r := by
      rw [coerceLoop_read_ne h.length r hne (sf ++ [tc]) _]
      exact happ
    simp only [Heap.alloc]
    split
    · exact hread
    · split
      · exact hread
      · split
        · exact hread
        · split
          · exact hmain.trans hread
          · split
            · exact hmain.trans hread
            · split
              · exact hmain.trans hread
              · exact hmain.trans hread

/-- Witness for C10 on a one-object heap holding the window `W6`. -/
theorem c10_witness :
    (0 : Nat) < ([W6] : Heap).length ∧
    Heap.read (validate_csv_window_st [W6] (some 0) fiveFeatures targetName 24).1 0 =
      Heap.read [W6] 0 :=
  ⟨by decide, c10_input_never_mutated [W6] 0 fiveFeatures targetName 24 (by decide)⟩
